import Mathlib

/-!
Verification development for the slack-agent repository.

The repository's core (per the design document) is a graph-based turn
execution engine (`src/slack_agent/agent/agent.py`, class `ReactAgent`),
an authorization gate (`src/slack_agent/tools/manager.py`,
`OpenSourceToolManager`), an orchestrator (`src/jerry/agent/__init__.py`,
`invoke_agent`), Slack listeners for the authorization-completion flow
(`src/slack_agent/listeners/actions/auth_complete.py` and
`auth_complete_button.py`), and an inbound event deduplication guard
(`src/slack_agent/server.py`, middleware `deduplicate_events`).

This file shallowly embeds those pieces and proves properties about them.
External collaborators (the language model, the LangGraph tool-execution
node, the checkpoint store, OAuth URL construction from environment
variables) are parameters of the embedding; everything else is translated
from the Python source.
-/

namespace Archer

/-- Message roles (LangChain message types, as used by the repository). -/
inductive Role
  | system
  | user
  | assistant
  | tool
deriving DecidableEq, Repr

/-- A tool call attached to an assistant message: `(name, arguments, id)`.
Arguments are opaque to the engine, kept as a string payload.
A missing `name` attribute (Python `getattr(tc, "name", None)` giving
`None`) is modelled as the empty string, matching Python falsiness. -/
structure ToolCall where
  name : String
  args : String := ""
  id : String := ""
deriving DecidableEq, Repr

/-- A conversation message. `tool_call_id` is set on tool-result messages
(LangChain `ToolMessage`). -/
structure Message where
  role : Role
  content : String
  tool_calls : List ToolCall := []
  tool_call_id : Option String := none
deriving DecidableEq, Repr

/-- The `AgentState` from agent.py: `MessagesState` extended with
`auth_message` and `resume_input`, both `str | None` defaulting to None. -/
structure AgentState where
  messages : List Message
  auth_message : Option String := none
  resume_input : Option String := none
deriving DecidableEq, Repr

/-- Python truthiness of a `str | None` value: `None` and `""` are falsy. -/
def truthy : Option String → Bool
  | none => false
  | some s => s != ""

/-- A Python value holding an authorization status and URL, together with
its runtime shape: a plain dict (`{"status": ..., "url": ...}`), or an
object exposing `.status`/`.url` attributes (the shape the
ArcadeToolManager this repository replaced used to return).
`OpenSourceToolManager.authorize` only ever builds dicts (manager.py
lines 94, 100 and 102 are dict literals, and the method is annotated
`-> Dict[str, Any]`). -/
inductive AuthValue
  | dict (status : String) (url : Option String)
  | obj (status : String) (url : Option String)
deriving DecidableEq, Repr

/-- Python attribute access `value.status`, as performed by
`ReactAgent.check_auth` (agent.py line 208) on the value returned by
`authorize`: it succeeds on an object and raises AttributeError on a
plain dict. -/
def getattr_status : AuthValue → Except String String
  | .dict _ _ => .error "AttributeError: dict object has no attribute status"
  | .obj status _ => .ok status

/-- Python attribute access `value.url`, as performed by
`ReactAgent.check_auth` (agent.py line 209). -/
def getattr_url : AuthValue → Except String (Option String)
  | .dict _ _ => .error "AttributeError: dict object has no attribute url"
  | .obj _ url => .ok url

/-- The capability-registry interface the engine consumes:
`requires_auth(tool_name)` and `authorize(tool_name, user_id)`.
The engine (`ReactAgent`) only ever calls these two methods of
`self.manager`. -/
structure Manager where
  requires_auth : String → Bool
  authorize : String → String → AuthValue

/-- The set `auth_required_tools` from manager.py: the set `{"github", "google"}`. -/
def auth_required_tools : List String := ["github", "google"]

/-- Method `OpenSourceToolManager.requires_auth`: membership in
`auth_required_tools`. -/
def osm_requires_auth (tool_name : String) : Bool :=
  decide (tool_name ∈ auth_required_tools)

/-- Method `OpenSourceToolManager.authorize` from manager.py: tools outside
`auth_required_tools` get `{"status": "completed", "url": None}`; the
auth-required tools ("github", "google") are both present in
`tools_registry` and both define `get_auth_url`, so for them the method
returns `{"status": "pending", "url": tool.get_auth_url(user_id)}`.
The OAuth URL itself is computed from environment variables (and, for
Google, the OAuth client library), so it is a parameter `get_auth_url`
here. -/
def osm_authorize (get_auth_url : String → String → String)
    (tool_name user_id : String) : AuthValue :=
  if !osm_requires_auth tool_name then
    .dict "completed" none
  else
    .dict "pending" (some (get_auth_url tool_name user_id))

/-- The concrete `OpenSourceToolManager`, parameterized by the
environment-dependent OAuth URL builder. -/
def openSourceToolManager (get_auth_url : String → String → String) : Manager :=
  { requires_auth := osm_requires_auth, authorize := osm_authorize get_auth_url }

/-- Tool calls of the last message of the state, extracted the way
`should_continue` and `check_auth` do (`messages[-1].tool_calls`, with
`[]` when there are no messages or no tool calls). -/
def lastToolCalls (state : AgentState) : List ToolCall :=
  match state.messages.getLast? with
  | some last_msg => last_msg.tool_calls
  | none => []

/-- The accumulation loop inside `ReactAgent.check_auth` building
`tools_to_auth` (a Python insertion-ordered dict, modelled as an
association list): for each tool call, if the name is truthy and the tool
requires auth, query `authorize`, then read `auth_response.status` by
attribute access; record `(name, auth_response.url)` when the status is
not "completed" and the name is not yet recorded. The attribute reads
raise (propagate as `.error`) when `authorize` returned a plain dict, as
`OpenSourceToolManager.authorize` always does — the loop then aborts
before recording anything. -/
def collect_tools_to_auth (m : Manager) (user_id : String) :
    List ToolCall → List (String × Option String) →
      Except String (List (String × Option String))
  | [], acc => .ok acc
  | tc :: rest, acc =>
    if tc.name != "" && m.requires_auth tc.name then
      let auth_response := m.authorize tc.name user_id
      match getattr_status auth_response with
      | .error e => .error e
      | .ok status =>
        if status != "completed" && decide (tc.name ∉ acc.map Prod.fst) then
          match getattr_url auth_response with
          | .error e => .error e
          | .ok url => collect_tools_to_auth m user_id rest (acc ++ [(tc.name, url)])
        else
          collect_tools_to_auth m user_id rest acc
    else
      collect_tools_to_auth m user_id rest acc

/-- Python's f-string rendering of an optional URL (`None` prints as
"None"). -/
def urlText : Option String → String
  | none => "None"
  | some u => u

/-- The numbered-list lines of `__create_url_string_for_slack`
(`enumerate(tools_to_auth.items(), 1)`). -/
def numbered_lines : Nat → List (String × Option String) → String
  | _, [] => ""
  | i, (tool_name, url) :: rest =>
    toString i ++ ". *" ++ tool_name ++ "*: <" ++ urlText url ++ "|" ++
      tool_name ++ " Tool>\n" ++ numbered_lines (i + 1) rest

/-- Method `ReactAgent.__create_url_string_for_slack` from agent.py: empty string
for no tools; a singular phrasing for exactly one tool; a numbered list
otherwise. -/
def create_url_string_for_slack (tools_to_auth : List (String × Option String)) : String :=
  match tools_to_auth with
  | [] => ""
  | [(tool_name, url)] =>
    "Please authorize the *" ++ tool_name ++ "* tool by visiting:\n<" ++
      urlText url ++ "|" ++ tool_name ++ " Tool>\n"
  | _ =>
    "Please authorize access for the following tools:\n" ++
      numbered_lines 1 tools_to_auth

/-- Node `ReactAgent.check_auth` from agent.py. The `user_id` comes from
`config["configurable"]["user_id"]` (absent modelled as `none`); a falsy
user id returns the state unchanged. Otherwise the pending dict is built
by `collect_tools_to_auth` — which raises AttributeError at its first
status read whenever `authorize` returned a plain dict, the only shape
`OpenSourceToolManager.authorize` produces — and, when the loop
completes, the node's update sets `auth_message` to the formatted
message (pending tools exist) or clears it to `None`. The raised
exception propagates out of the node as `.error`. -/
def check_auth (m : Manager) (user_id : Option String) (state : AgentState) :
    Except String AgentState :=
  if !truthy user_id then .ok state
  else
    let uid := user_id.getD ""
    match collect_tools_to_auth m uid (lastToolCalls state) [] with
    | .error e => .error e
    | .ok tools_to_auth =>
      if !tools_to_auth.isEmpty then
        .ok { state with auth_message := some (create_url_string_for_slack tools_to_auth) }
      else
        .ok { state with auth_message := none }

/-- The conditional edge `continue_after_check_auth` defined inside
`ReactAgent.setup_graph`: route to "auth_interrupt" when
`state.get("auth_message")` is truthy, else to "tools". -/
def continue_after_check_auth (state : AgentState) : String :=
  if truthy state.auth_message then "auth_interrupt" else "tools"

/-- LangGraph's terminal sentinel `END`. -/
def END : String := "__end__"

/-- The LangGraph prebuilt `tools_condition` (an external collaborator of
agent.py): look at the last message; return "tools" when it carries tool
calls, `END` otherwise; error (modelled as `none`) when there is no
message to inspect. -/
def tools_condition (state : AgentState) : Option String :=
  state.messages.getLast?.map fun ai_message =>
    if !ai_message.tool_calls.isEmpty then "tools" else END

/-- Routing function `ReactAgent.should_continue` from agent.py: defer to
`tools_condition`; on `END` return `END`; otherwise return "check_auth"
when any tool call has a truthy name naming a tool with
`requires_auth`, else "tools". -/
def should_continue (m : Manager) (state : AgentState) : Option String :=
  match tools_condition state with
  | none => none
  | some next_node =>
    if next_node == END then some END
    else
      let tool_calls := lastToolCalls state
      if tool_calls.any (fun t => t.name != "" && m.requires_auth t.name) then
        some "check_auth"
      else
        some "tools"

/-- Outcome of running the `auth_interrupt` node once: either the node
raises a LangGraph interrupt carrying the auth message (suspending the
turn), or it completes with an updated state. -/
inductive InterruptResult
  | suspend (value : String)
  | updated (state : AgentState)
deriving DecidableEq, Repr

/-- Node `ReactAgent.auth_interrupt` from agent.py: if `auth_message` is truthy
and `resume_input is None`, call `interrupt(value=auth_message)`; else if
`resume_input is not None`, clear both fields; else return the state
unchanged. -/
def auth_interrupt (state : AgentState) : InterruptResult :=
  if truthy state.auth_message && state.resume_input == none then
    .suspend (state.auth_message.getD "")
  else if state.resume_input != none then
    .updated { state with auth_message := none, resume_input := none }
  else
    .updated state

/-- Function `handle_tool_error` from agent.py: one `ToolMessage` per tool call of
the last message, each with content `f"Error: {error!r}\nPlease fix your
mistakes."` (the `error` parameter here stands for the Python repr of the
exception) and `tool_call_id` the call's id. Python indexes
`state["messages"][-1]`, which raises on an empty history; that failure
is modelled as `none`. -/
def handle_tool_error (error : String) (state : AgentState) : Option (List Message) :=
  state.messages.getLast?.map fun last_msg =>
    last_msg.tool_calls.map fun tc =>
      { role := .tool,
        content := "Error: " ++ error ++ "\nPlease fix your mistakes.",
        tool_call_id := some tc.id }

/-- External collaborators of the engine: the language model
(`self.prompted_model.invoke` inside `call_agent`) and LangGraph's
`ToolNode` (the primary runnable inside
`create_tool_node_with_fallback`, whose failure triggers the
`handle_tool_error` fallback). `runToolNode` returns the list of
tool-result messages on success, or the error (its repr text) on
failure. -/
structure Oracle where
  modelFn : List Message → Message
  runToolNode : AgentState → Except String (List Message)

/-- Node `ReactAgent.call_agent`: invoke the model on the full history and
append its response (the node's `{"messages": [response]}` update under
the `add_messages` reducer). -/
def call_agent (o : Oracle) (state : AgentState) : AgentState :=
  { state with messages := state.messages ++ [o.modelFn state.messages] }

/-- The graph nodes declared in `ReactAgent.setup_graph`. -/
inductive Node
  | agent
  | tools
  | check_auth
  | auth_interrupt
deriving DecidableEq, Repr

/-- Result of executing the graph from some node: the visited-node trace
plus the outcome. `suspended` is the LangGraph interrupt raised inside
`auth_interrupt`; `failed` is an uncaught exception (its text recorded);
`outOfFuel` truncates the unbounded `agent↔tools` cycle. -/
inductive RunResult
  | completed (trace : List Node) (finalState : AgentState)
  | suspended (trace : List Node) (finalState : AgentState) (value : String)
  | failed (trace : List Node) (error : String)
  | outOfFuel (trace : List Node) (state : AgentState)
deriving DecidableEq, Repr

/-- The visited-node trace of a run. -/
def RunResult.trace : RunResult → List Node
  | .completed t _ => t
  | .suspended t _ _ => t
  | .failed t _ => t
  | .outOfFuel t _ => t

/-- Prepend a node to a run's trace. -/
def RunResult.consTrace (r : RunResult) (n : Node) : RunResult :=
  match r with
  | .completed t s => .completed (n :: t) s
  | .suspended t s v => .suspended (n :: t) s v
  | .failed t e => .failed (n :: t) e
  | .outOfFuel t s => .outOfFuel (n :: t) s

/-- One-turn execution of the graph compiled in `ReactAgent.setup_graph`,
starting at `node`. The edges are exactly the compiled ones:
`START→agent`; `agent→{tools, check_auth, END}` by `should_continue`;
`check_auth→{auth_interrupt, tools}` by `continue_after_check_auth`;
`tools→agent`; `auth_interrupt` has no outgoing edge (when it does not
raise an interrupt, the graph run ends there). The `agent↔tools` cycle is
unbounded in the source, so execution is fuel-indexed. -/
def runFrom (m : Manager) (o : Oracle) (user_id : Option String) :
    Nat → Node → AgentState → RunResult
  | 0, _, s => .outOfFuel [] s
  | fuel + 1, .agent, s =>
    let s' := call_agent o s
    match should_continue m s' with
    | none => .failed [.agent] "No message found in input"
    | some next_node =>
      if next_node == END then .completed [.agent] s'
      else if next_node == "check_auth" then
        (runFrom m o user_id fuel .check_auth s').consTrace .agent
      else
        (runFrom m o user_id fuel .tools s').consTrace .agent
  | fuel + 1, .check_auth, s =>
    match check_auth m user_id s with
    | .error e => .failed [.check_auth] e
    | .ok s' =>
      if continue_after_check_auth s' == "auth_interrupt" then
        (runFrom m o user_id fuel .auth_interrupt s').consTrace .check_auth
      else
        (runFrom m o user_id fuel .tools s').consTrace .check_auth
  | _ + 1, .auth_interrupt, s =>
    match auth_interrupt s with
    | .suspend v => .suspended [.auth_interrupt] s v
    | .updated s' => .completed [.auth_interrupt] s'
  | fuel + 1, .tools, s =>
    match o.runToolNode s with
    | .ok msgs =>
      (runFrom m o user_id fuel .agent { s with messages := s.messages ++ msgs }).consTrace .tools
    | .error e =>
      match handle_tool_error e s with
      | some msgs =>
        (runFrom m o user_id fuel .agent
          { s with messages := s.messages ++ msgs }).consTrace .tools
      | none => .failed [.tools] "list index out of range"

/-- The resume protocol of `invoke_agent` (jerry/agent/__init__.py):
`graph.invoke(Command(update={"resume_input": "yes"}, resume="post-auth",
goto="tools"), config)`. The update is applied to the checkpointed state,
the interrupted `auth_interrupt` node re-runs (now taking its
clear-both-fields branch since `resume_input` is set), and execution
continues at the "tools" node per `goto`. -/
def resume_invoke (m : Manager) (o : Oracle) (user_id : Option String)
    (fuel : Nat) (saved : AgentState) : RunResult :=
  let s' := { saved with resume_input := some "yes" }
  match auth_interrupt s' with
  | .suspend v => .suspended [.auth_interrupt] s' v
  | .updated s'' => (runFrom m o user_id fuel .tools s'').consTrace .auth_interrupt

/-- The `AgentResponse` dataclass from jerry/agent/__init__.py. -/
structure AgentResponse where
  content : Option String := none
  auth_message : Option String := none
  thread_id : Option String := none
deriving DecidableEq, Repr

/-- The fixed user-facing content of `invoke_agent`'s `except` branch. -/
def genericErrorContent : String :=
  "An unexpected error occurred while processing your request."

/-- Function `build_state` from jerry/agent/__init__.py: system prompt, then any
prior context messages, then the user message passed through
`slack_to_markdown` (an external text transform, a parameter here). -/
def build_state (s2md : String → String) (system_content prompt : String)
    (context : List Message) : AgentState :=
  { messages :=
      [{ role := .system, content := system_content }] ++ context ++
        [{ role := .user, content := s2md prompt }] }

/-- The response extraction of `invoke_agent`: on success (including a
suspension, where `graph.invoke` returns the state as of the interrupt)
read `response_state["messages"][-1].content` and
`response_state.get("auth_message")`; a graph exception lands in the
`except` branch, which returns the generic-error response. Caveat: the
`messages[-1]` read happens in the try's `else` clause, where Python no
longer catches — an empty message list would raise an uncaught
IndexError there. No embedded flow produces an empty list (`build_state`
always yields messages and the graph only appends), and this model maps
that unreachable case to the generic-error response. -/
def toAgentResponse (thread_id : String) (r : RunResult) : AgentResponse :=
  match r with
  | .completed _ s =>
    match s.messages.getLast? with
    | some last_message =>
      { content := some last_message.content, auth_message := s.auth_message,
        thread_id := some thread_id }
    | none => { content := some genericErrorContent, thread_id := some thread_id }
  | .suspended _ s _ =>
    match s.messages.getLast? with
    | some last_message =>
      { content := some last_message.content, auth_message := s.auth_message,
        thread_id := some thread_id }
    | none => { content := some genericErrorContent, thread_id := some thread_id }
  | .outOfFuel _ s =>
    match s.messages.getLast? with
    | some last_message =>
      { content := some last_message.content, auth_message := s.auth_message,
        thread_id := some thread_id }
    | none => { content := some genericErrorContent, thread_id := some thread_id }
  | .failed _ _ => { content := some genericErrorContent, thread_id := some thread_id }

/-- Function `invoke_agent` from jerry/agent/__init__.py, for a caller-supplied
`thread_id`. On `resume=True` it invokes the graph with a resume
`Command`; the engine continues from the last checkpoint stored for
`thread_id` (`store`), and the caller-supplied `prompt` and `context`
play no part. Resuming a thread with no checkpoint raises inside
LangGraph and lands in the `except` branch. On `resume=False` it builds
a fresh state from the prompt and context and runs the graph from
`agent`. -/
def invoke_agent (m : Manager) (o : Oracle) (store : String → Option AgentState)
    (s2md : String → String) (system_content : String) (user_id prompt : String)
    (context : List Message) (thread_id : String) (resume : Bool)
    (fuel : Nat) : AgentResponse :=
  if resume then
    match store thread_id with
    | some saved =>
      toAgentResponse thread_id (resume_invoke m o (some user_id) fuel saved)
    | none => { content := some genericErrorContent, thread_id := some thread_id }
  else
    toAgentResponse thread_id
      (runFrom m o (some user_id) fuel .agent
        (build_state s2md system_content prompt context))

/-- The user-visible text posted by `handle_auth_complete`'s `except`
branch (auth_complete.py): it interpolates the exception text (`{e!s}`)
into the message sent to the end-user channel. -/
def auth_complete_error_text (e : String) : String :=
  ":warning: Something went wrong after the authorization: " ++ e

/-- The user-visible text posted by `handle_auth_complete_button`'s
`except` branch (auth_complete_button.py): it also interpolates the
exception text. -/
def auth_complete_button_error_text (e : String) : String :=
  ":warning: Could not open authorization dialog: " ++ e

/-! ## Event dedup guard (server.py) -/

/-- The capacity of `processed_events = deque(maxlen=1000)`. -/
def dedupMaxlen : Nat := 1000

/-- The ring of recently seen event ids (`processed_events`), most recent
last. -/
structure DedupState where
  events : List String
deriving DecidableEq, Repr

/-- Python `deque.append` with `maxlen=1000`: append on the right, evicting from
the left when the capacity is exceeded. -/
def dedupAppend (s : DedupState) (event_id : String) : DedupState :=
  let l := s.events ++ [event_id]
  ⟨l.drop (l.length - dedupMaxlen)⟩

/-- The check-and-insert performed under `event_lock` inside
`deduplicate_events`: report whether `event_id` was already present and
record it when it was not. Concurrent atomicity is supplied by the lock;
this is the sequential semantics of the critical section. -/
def seen (s : DedupState) (event_id : String) : Bool × DedupState :=
  if event_id ∈ s.events then (true, s)
  else (false, dedupAppend s event_id)

/-- What the middleware does with a request: skip a duplicate delivery
(responding 200 without calling `next()`), or process it. -/
inductive BoltAction
  | skipDuplicate
  | process
deriving DecidableEq, Repr

/-- The `deduplicate_events` middleware from server.py: only requests
whose event type is one of "message"/"app_mention"/"assistant" and whose
`event_id` is truthy go through the guard; a duplicate is skipped,
anything else is processed. -/
def deduplicate_events (event_type event_id : Option String) (s : DedupState) :
    BoltAction × DedupState :=
  if (event_type.elim false fun t =>
        decide (t ∈ ["message", "app_mention", "assistant"])) && truthy event_id then
    let r := seen s (event_id.getD "")
    if r.fst then (.skipDuplicate, r.snd) else (.process, r.snd)
  else (.process, s)

/-- Insert a sequence of event ids through the guard in order. -/
def insertAll (ids : List String) (s : DedupState) : DedupState :=
  ids.foldl (fun acc i => (seen acc i).snd) s

/-! ## Helper lemmas -/

theorem consTrace_trace (r : RunResult) (n : Node) :
    (r.consTrace n).trace = n :: r.trace := by
  cases r <;> rfl

theorem insertAll_fresh :
    ∀ (ids : List String) (s : DedupState), ids.Nodup →
    (∀ i ∈ ids, i ∉ s.events) → s.events.length ≤ dedupMaxlen →
    (insertAll ids s).events =
      (s.events ++ ids).drop (s.events.length + ids.length - dedupMaxlen)
  | [], s, _, _, hlen => by
    simp [insertAll, Nat.sub_eq_zero_of_le hlen]
  | a :: rest, s, hnd, hfresh, hlen => by
    have ha : a ∉ s.events := hfresh a (List.mem_cons_self a rest)
    have hstep : insertAll (a :: rest) s = insertAll rest (dedupAppend s a) := by
      simp [insertAll, seen, ha, List.foldl_cons]
    have hev : (dedupAppend s a).events =
        (s.events ++ [a]).drop (s.events.length + 1 - dedupMaxlen) := by
      simp [dedupAppend]
    have hlen' : (dedupAppend s a).events.length =
        s.events.length + 1 - (s.events.length + 1 - dedupMaxlen) := by
      rw [hev, List.length_drop, List.length_append, List.length_singleton]
    have hM : dedupMaxlen = 1000 := rfl
    have hsub : (dedupAppend s a).events ⊆ s.events ++ [a] := by
      rw [hev]
      exact List.drop_subset _ _
    rw [hstep, insertAll_fresh rest (dedupAppend s a) hnd.of_cons
      (by
        intro i hi hmem
        have hm2 := hsub hmem
        rw [List.mem_append, List.mem_singleton] at hm2
        rcases hm2 with h | h
        · exact hfresh i (List.mem_cons_of_mem a hi) h
        · subst h
          exact absurd hi (List.nodup_cons.mp hnd).1)
      (by rw [hlen', hM]; rw [hM] at hlen; omega)]
    rw [hlen', hev]
    rw [← List.drop_append_of_le_length
      (show s.events.length + 1 - dedupMaxlen ≤ (s.events ++ [a]).length by
        rw [List.length_append, List.length_singleton, hM]
        rw [hM] at hlen
        omega)]
    rw [List.drop_drop]
    rw [List.append_assoc, List.singleton_append]
    have harith : s.events.length + 1 - dedupMaxlen +
        (s.events.length + 1 - (s.events.length + 1 - dedupMaxlen) + rest.length -
          dedupMaxlen) = s.events.length + (a :: rest).length - dedupMaxlen := by
      rw [List.length_cons, hM]
      rw [hM] at hlen
      omega
    rw [harith]

/-! ## Concrete fixtures used by the witnesses -/

/-- A concrete OAuth URL builder standing for the environment-dependent
`get_auth_url` of the github/google tools. -/
def demoUrl (tool_name user_id : String) : String :=
  "https://auth.example/" ++ tool_name ++ "/" ++ user_id

/-- The concrete tool manager used in witnesses. -/
def demoManager : Manager := openSourceToolManager demoUrl

/-- A tool call naming the auth-required github tool. -/
def githubCall : ToolCall := { name := "github", args := "", id := "call_1" }

/-- A tool call naming the auth-required google tool. -/
def googleCall : ToolCall := { name := "google", args := "", id := "call_2" }

/-- A tool call naming the auth-free search tool. -/
def searchCall : ToolCall := { name := "search", args := "", id := "call_3" }

/-- A state whose last (assistant) message carries the given tool calls. -/
def demoState (calls : List ToolCall) : AgentState :=
  { messages := [{ role := .user, content := "hi" },
      { role := .assistant, content := "", tool_calls := calls }] }

/-- An oracle whose model emits a plain reply and whose tool node
succeeds with no messages. -/
def plainOracle : Oracle :=
  { modelFn := fun _ => { role := .assistant, content := "done" },
    runToolNode := fun _ => .ok [] }

/-- An oracle whose tool node always fails. -/
def failingOracle : Oracle :=
  { modelFn := fun _ => { role := .assistant, content := "done" },
    runToolNode := fun _ => .error "ValueError(boom)" }

/-! ## Claim theorems -/

/-- C8: for every conversation state whose last assistant message (the
one just produced by the model inside the `agent` node) carries no tool
calls, the routing function `should_continue` returns the terminal END,
and the turn completes — the run result is `completed` (suspended =
false, no interrupt raised) — with no pending auth message when none was
already stored. -/
theorem c8_no_tool_calls_ends_turn (m : Manager) (o : Oracle) (user_id : Option String)
    (s : AgentState) (fuel : Nat)
    (hmodel : (o.modelFn s.messages).tool_calls = [])
    (hauth : s.auth_message = none) :
    should_continue m (call_agent o s) = some END ∧
    runFrom m o user_id (fuel + 1) .agent s = .completed [.agent] (call_agent o s) ∧
    (call_agent o s).auth_message = none := by
  have hlast : (call_agent o s).messages.getLast? = some (o.modelFn s.messages) := by
    simp [call_agent, List.getLast?_concat]
  have hsc : should_continue m (call_agent o s) = some END := by
    simp [should_continue, tools_condition, hlast, hmodel]
  refine ⟨hsc, ?_, hauth⟩
  simp [runFrom, hsc]

/-- Closed witness for C8. -/
theorem c8_witness :
    should_continue demoManager (call_agent plainOracle { messages := [] }) = some END ∧
    runFrom demoManager plainOracle none 1 .agent { messages := [] } =
      .completed [.agent] (call_agent plainOracle { messages := [] }) ∧
    (call_agent plainOracle { messages := [] }).auth_message = none :=
  c8_no_tool_calls_ends_turn demoManager plainOracle none { messages := [] } 0 rfl rfl

/-- C10: when the invocation config carries no (truthy) user_id,
`check_auth` returns the state unchanged — no authorization query has any
effect on the result — and, when no stale auth message is present, the
run proceeds from the `check_auth` node straight to the `tools` node with
the state untouched, so auth-required tool calls execute without any
authorization check. -/
theorem c10_missing_user_id_skips_auth (m : Manager) (o : Oracle)
    (user_id : Option String) (s : AgentState) (fuel : Nat)
    (huid : truthy user_id = false)
    (hauth : s.auth_message = none) :
    check_auth m user_id s = .ok s ∧
    continue_after_check_auth s = "tools" ∧
    runFrom m o user_id (fuel + 1) .check_auth s =
      (runFrom m o user_id fuel .tools s).consTrace .check_auth := by
  have h1 : check_auth m user_id s = .ok s := by
    simp [check_auth, huid]
  have h2 : continue_after_check_auth s = "tools" := by
    simp [continue_after_check_auth, hauth, truthy]
  refine ⟨h1, h2, ?_⟩
  simp [runFrom, h1, h2]

/-- Closed witness for C10: a turn whose last assistant message calls
the auth-required github tool, but whose config has no user id. -/
theorem c10_witness :
    check_auth demoManager none (demoState [githubCall]) = .ok (demoState [githubCall]) ∧
    continue_after_check_auth (demoState [githubCall]) = "tools" ∧
    runFrom demoManager plainOracle none 1 .check_auth (demoState [githubCall]) =
      (runFrom demoManager plainOracle none 0 .tools
        (demoState [githubCall])).consTrace .check_auth :=
  c10_missing_user_id_skips_auth demoManager plainOracle none (demoState [githubCall]) 0
    rfl rfl

/-- C2: the `auth_interrupt` step. With a (truthy) pending auth message
and no resume signal, the node raises the interrupt carrying the message
and the run suspends right there — no tool node executes, the trace is
just `[auth_interrupt]`. With a resume signal present, the node clears
both `auth_message` and `resume_input` in the same transition; and the
resume protocol of `invoke_agent` (`Command(update, resume,
goto="tools")`) continues at the `tools` node with both fields
cleared. -/
theorem c2_auth_interrupt_suspend_and_resume (m : Manager) (o : Oracle)
    (user_id : Option String) (fuel : Nat) (ms : List Message) (msg ri : String)
    (am ri0 : Option String)
    (hmsg : msg ≠ "") :
    auth_interrupt { messages := ms, auth_message := some msg, resume_input := none } =
      .suspend msg ∧
    runFrom m o user_id (fuel + 1) .auth_interrupt
        { messages := ms, auth_message := some msg, resume_input := none } =
      .suspended [.auth_interrupt]
        { messages := ms, auth_message := some msg, resume_input := none } msg ∧
    auth_interrupt { messages := ms, auth_message := am, resume_input := some ri } =
      .updated { messages := ms, auth_message := none, resume_input := none } ∧
    resume_invoke m o user_id fuel
        { messages := ms, auth_message := am, resume_input := ri0 } =
      (runFrom m o user_id fuel .tools
        { messages := ms, auth_message := none, resume_input := none }).consTrace
        .auth_interrupt := by
  have h1 : auth_interrupt
      { messages := ms, auth_message := some msg, resume_input := none } =
      .suspend msg := by
    simp [auth_interrupt, truthy, hmsg]
  refine ⟨h1, ?_, ?_, ?_⟩
  · simp [runFrom, h1]
  · simp [auth_interrupt, truthy]
  · simp [resume_invoke, auth_interrupt, truthy]

/-- Closed witness for C2. -/
theorem c2_witness :
    auth_interrupt { messages := [], auth_message := some "pending", resume_input := none } =
      .suspend "pending" ∧
    runFrom demoManager plainOracle none 1 .auth_interrupt
        { messages := [], auth_message := some "pending", resume_input := none } =
      .suspended [.auth_interrupt]
        { messages := [], auth_message := some "pending", resume_input := none }
        "pending" ∧
    auth_interrupt
        { messages := [], auth_message := some "pending", resume_input := some "yes" } =
      .updated { messages := [], auth_message := none, resume_input := none } ∧
    resume_invoke demoManager plainOracle none 0
        { messages := [], auth_message := some "pending", resume_input := none } =
      (runFrom demoManager plainOracle none 0 .tools
        { messages := [], auth_message := none, resume_input := none }).consTrace
        .auth_interrupt :=
  c2_auth_interrupt_suspend_and_resume demoManager plainOracle none 0 [] "pending" "yes"
    (some "pending") none (by decide)

/-- C7: when the tool node fails, the fallback appends exactly one
tool-result message per tool call of the last assistant message — each
carrying the model-addressed error text and correlated by the call's
id — and the run continues from `tools` back to `agent` instead of
propagating the failure. -/
theorem c7_tool_failure_feeds_errors_back (m : Manager) (o : Oracle)
    (user_id : Option String) (fuel : Nat) (s : AgentState) (e : String)
    (last_msg : Message)
    (herr : o.runToolNode s = .error e)
    (hlast : s.messages.getLast? = some last_msg) :
    handle_tool_error e s = some (last_msg.tool_calls.map fun tc =>
      { role := .tool,
        content := "Error: " ++ e ++ "\nPlease fix your mistakes.",
        tool_call_id := some tc.id }) ∧
    runFrom m o user_id (fuel + 1) .tools s =
      (runFrom m o user_id fuel .agent
        { s with messages := s.messages ++ (last_msg.tool_calls.map fun tc =>
          { role := .tool,
            content := "Error: " ++ e ++ "\nPlease fix your mistakes.",
            tool_call_id := some tc.id }) }).consTrace .tools := by
  have h1 : handle_tool_error e s = some (last_msg.tool_calls.map fun tc =>
      { role := .tool,
        content := "Error: " ++ e ++ "\nPlease fix your mistakes.",
        tool_call_id := some tc.id }) := by
    simp [handle_tool_error, hlast]
  refine ⟨h1, ?_⟩
  simp [runFrom, herr, h1]

/-- Closed witness for C7: a failing tool node over a state whose last
assistant message carries the github tool call. -/
theorem c7_witness :
    handle_tool_error "ValueError(boom)" (demoState [githubCall]) =
      some ([githubCall].map fun tc =>
        { role := .tool,
          content := "Error: " ++ "ValueError(boom)" ++ "\nPlease fix your mistakes.",
          tool_call_id := some tc.id }) ∧
    runFrom demoManager failingOracle none 1 .tools (demoState [githubCall]) =
      (runFrom demoManager failingOracle none 0 .agent
        { demoState [githubCall] with
          messages := (demoState [githubCall]).messages ++
            ([githubCall].map fun tc =>
              { role := .tool,
                content := "Error: " ++ "ValueError(boom)" ++
                  "\nPlease fix your mistakes.",
                tool_call_id := some tc.id }) }).consTrace .tools :=
  c7_tool_failure_feeds_errors_back demoManager failingOracle none 0
    (demoState [githubCall]) "ValueError(boom)"
    { role := .assistant, content := "", tool_calls := [githubCall] } rfl rfl

/-- C5: on resume (`resume=True`, same threadId), the result of
`invoke_agent` is derived only from the checkpoint stored for that
threadId — two resume invocations differing in the caller-supplied
prompt/context (and even in checkpoints for other threads) compute the
same continuation. -/
theorem c5_resume_ignores_caller_history (m : Manager) (o : Oracle)
    (store1 store2 : String → Option AgentState) (s2md : String → String)
    (system_content user_id prompt1 prompt2 : String)
    (ctx1 ctx2 : List Message) (thread_id : String) (fuel : Nat)
    (hstore : store1 thread_id = store2 thread_id) :
    invoke_agent m o store1 s2md system_content user_id prompt1 ctx1 thread_id true fuel =
    invoke_agent m o store2 s2md system_content user_id prompt2 ctx2 thread_id true fuel := by
  simp only [invoke_agent, if_true]
  rw [hstore]

/-- Closed witness for C5: two stores agreeing on the resumed thread,
different caller-supplied prompts and histories. -/
theorem c5_witness :
    invoke_agent demoManager plainOracle
      (fun t => if t = "T1" then some (demoState [githubCall]) else none)
      (fun p => p) "system" "U1" "first prompt" [] "T1" true 3 =
    invoke_agent demoManager plainOracle
      (fun t => if t = "T1" then some (demoState [githubCall]) else some { messages := [] })
      (fun p => p) "system" "U1" "other prompt"
      [{ role := .user, content := "forged history" }] "T1" true 3 :=
  c5_resume_ignores_caller_history demoManager plainOracle
    (fun t => if t = "T1" then some (demoState [githubCall]) else none)
    (fun t => if t = "T1" then some (demoState [githubCall]) else some { messages := [] })
    (fun p => p) "system" "U1" "first prompt" "other prompt" []
    [{ role := .user, content := "forged history" }] "T1" 3 (by decide)

/-- C1 (code bug): the claim states the intended pending-set protocol of
`check_auth`, but the code cannot perform it. agent.py lines 208-209
read `auth_response.status` and `auth_response.url` by attribute access,
while `OpenSourceToolManager.authorize` — the registry this agent
constructs (agent.py line 76) — returns a plain dict (manager.py lines
94, 100, 102), so the node raises AttributeError at its very first
status read: no pending entry is recorded, no auth message is stored or
cleared, and no transition to `tools` or `auth_interrupt` happens. This
theorem evaluates the embedded code at the failing input (user "U1",
last assistant message calling the auth-required github tool): the
collection loop, the `check_auth` node, and the graph step all end in
the AttributeError. -/
theorem c1_check_auth_crashes :
    collect_tools_to_auth demoManager "U1"
        (lastToolCalls (demoState [githubCall])) [] =
      .error "AttributeError: dict object has no attribute status" ∧
    check_auth demoManager (some "U1") (demoState [githubCall]) =
      .error "AttributeError: dict object has no attribute status" ∧
    runFrom demoManager plainOracle (some "U1") 1 .check_auth (demoState [githubCall]) =
      .failed [.check_auth] "AttributeError: dict object has no attribute status" := by
  refine ⟨?_, ?_, ?_⟩ <;> rfl

/-- C6 (code bug): the formatting function itself is the deterministic
message the claim describes — singular phrasing for one pending
(tool, URL) pair, a numbered list in sequence order for more — but no
`pendingAuthMessage` is ever stored: the `tools_to_auth` loop crashes
with AttributeError at its first `auth_response.status` read (the
registry returns plain dicts), so `check_auth` never reaches the
formatting or the store. Evaluated at representative inputs. -/
theorem c6_message_never_stored :
    create_url_string_for_slack [("github", some "https://auth.example/github/U1")] =
      "Please authorize the *github* tool by visiting:\n" ++
        "<https://auth.example/github/U1|github Tool>\n" ∧
    create_url_string_for_slack
        [("github", some "https://auth.example/github/U1"),
          ("google", some "https://auth.example/google/U1")] =
      "Please authorize access for the following tools:\n" ++
        "1. *github*: <https://auth.example/github/U1|github Tool>\n" ++
        "2. *google*: <https://auth.example/google/U1|google Tool>\n" ∧
    check_auth demoManager (some "U1") (demoState [githubCall, googleCall]) =
      .error "AttributeError: dict object has no attribute status" := by
  refine ⟨?_, ?_, ?_⟩ <;> rfl

theorem routing_after_agent (m : Manager) (o : Oracle) (s : AgentState)
    (H : ∀ hist, ∀ tc ∈ (o.modelFn hist).tool_calls, m.requires_auth tc.name = false) :
    should_continue m (call_agent o s) = some END ∨
    should_continue m (call_agent o s) = some "tools" := by
  have hlast : (call_agent o s).messages.getLast? = some (o.modelFn s.messages) := by
    simp [call_agent, List.getLast?_concat]
  cases hemp : (o.modelFn s.messages).tool_calls with
  | nil =>
    left
    simp [should_continue, tools_condition, hlast, hemp]
  | cons a t =>
    right
    have hany : ((o.modelFn s.messages).tool_calls).any
        (fun tcall => tcall.name != "" && m.requires_auth tcall.name) = false := by
      rw [List.any_eq_false]
      intro x hx
      simp [H s.messages x hx]
    rw [hemp] at hany
    simp [should_continue, tools_condition, lastToolCalls, hlast, hemp, hany, END]

theorem avoid_auth_nodes (m : Manager) (o : Oracle) (user_id : Option String)
    (H : ∀ hist, ∀ tc ∈ (o.modelFn hist).tool_calls, m.requires_auth tc.name = false) :
    ∀ (fuel : Nat) (s : AgentState),
      (Node.check_auth ∉ (runFrom m o user_id fuel .agent s).trace ∧
        Node.auth_interrupt ∉ (runFrom m o user_id fuel .agent s).trace) ∧
      (Node.check_auth ∉ (runFrom m o user_id fuel .tools s).trace ∧
        Node.auth_interrupt ∉ (runFrom m o user_id fuel .tools s).trace)
  | 0, s => by simp [runFrom, RunResult.trace]
  | fuel + 1, s => by
    constructor
    · rcases routing_after_agent m o s H with hsc | hsc
      · rw [show runFrom m o user_id (fuel + 1) .agent s =
            .completed [.agent] (call_agent o s) by
          simp [runFrom, hsc]]
        simp [RunResult.trace]
      · rw [show runFrom m o user_id (fuel + 1) .agent s =
            (runFrom m o user_id fuel .tools (call_agent o s)).consTrace .agent by
          simp [runFrom, hsc, END]]
        have ih := (avoid_auth_nodes m o user_id H fuel (call_agent o s)).2
        simp [consTrace_trace, List.mem_cons, ih.1, ih.2]
    · cases he : o.runToolNode s with
      | ok msgs =>
        rw [show runFrom m o user_id (fuel + 1) .tools s =
            (runFrom m o user_id fuel .agent
              { s with messages := s.messages ++ msgs }).consTrace .tools by
          simp [runFrom, he]]
        have ih := (avoid_auth_nodes m o user_id H fuel
          { s with messages := s.messages ++ msgs }).1
        simp [consTrace_trace, List.mem_cons, ih.1, ih.2]
      | error e =>
        cases hh : handle_tool_error e s with
        | none =>
          rw [show runFrom m o user_id (fuel + 1) .tools s =
              .failed [.tools] "list index out of range" by
            simp [runFrom, he, hh]]
          simp [RunResult.trace]
        | some msgs =>
          rw [show runFrom m o user_id (fuel + 1) .tools s =
              (runFrom m o user_id fuel .agent
                { s with messages := s.messages ++ msgs }).consTrace .tools by
            simp [runFrom, he, hh]]
          have ih := (avoid_auth_nodes m o user_id H fuel
            { s with messages := s.messages ++ msgs }).1
          simp [consTrace_trace, List.mem_cons, ih.1, ih.2]

/-- C9: when every tool the model ever names reports requiresAuth =
false, a turn started at the `agent` node never visits the `check_auth`
node nor the `auth_interrupt` node (the routing function sends it
straight to `tools` or to END). -/
theorem c9_no_auth_no_auth_nodes (m : Manager) (o : Oracle) (user_id : Option String)
    (fuel : Nat) (s : AgentState)
    (H : ∀ hist, ∀ tc ∈ (o.modelFn hist).tool_calls, m.requires_auth tc.name = false) :
    Node.check_auth ∉ (runFrom m o user_id fuel .agent s).trace ∧
    Node.auth_interrupt ∉ (runFrom m o user_id fuel .agent s).trace :=
  (avoid_auth_nodes m o user_id H fuel s).1

/-- Closed witness for C9: an oracle whose model emits a search tool
call (requires_auth = false) on the first round and then stops. -/
def searchOracle : Oracle :=
  { modelFn := fun hist =>
      if hist.length ≤ 2 then
        { role := .assistant, content := "", tool_calls := [searchCall] }
      else
        { role := .assistant, content := "done" },
    runToolNode := fun _ =>
      .ok [{ role := .tool, content := "result", tool_call_id := some "call_3" }] }

theorem c9_witness :
    Node.check_auth ∉
      (runFrom demoManager searchOracle none 5 .agent { messages := [] }).trace ∧
    Node.auth_interrupt ∉
      (runFrom demoManager searchOracle none 5 .agent { messages := [] }).trace :=
  c9_no_auth_no_auth_nodes demoManager searchOracle none 5 { messages := [] }
    (by
      intro hist tc htc
      by_cases hl : hist.length ≤ 2
      · simp [searchOracle, hl] at htc
        simp [htc, demoManager, openSourceToolManager, osm_requires_auth,
          auth_required_tools, searchCall]
      · simp [searchOracle, hl] at htc)

/-- Helper for the eviction clause: inserting any 1000 distinct fresh ids
after recording "b" in an empty guard evicts "b". -/
theorem dedup_evict_helper (ids : List String) (hnd : ids.Nodup)
    (hlen : ids.length = dedupMaxlen) (hb : "b" ∉ ids) :
    (seen (insertAll ids (seen ⟨[]⟩ "b").2) "b").1 = false := by
  have hb2 : (seen (⟨[]⟩ : DedupState) "b").2 = ⟨["b"]⟩ := by
    simp [seen, dedupAppend, dedupMaxlen]
  rw [hb2]
  have hins := insertAll_fresh ids ⟨["b"]⟩ hnd
    (by
      intro i hi hc
      rw [List.mem_singleton] at hc
      rw [hc] at hi
      exact hb hi)
    (by
      show (1 : Nat) ≤ dedupMaxlen
      have hM : dedupMaxlen = 1000 := rfl
      omega)
  rw [List.singleton_append, List.length_singleton, hlen] at hins
  rw [show (1 : Nat) + dedupMaxlen - dedupMaxlen = 1 from by omega] at hins
  rw [List.drop_one, List.tail_cons] at hins
  have hnot : "b" ∉ (insertAll ids (⟨["b"]⟩ : DedupState)).events := by
    rw [hins]
    exact hb
  simp [seen, hnot]

set_option maxRecDepth 4000 in
/-- C3: the dedup guard over the 1000-entry ring. A first check of an id
not in the window reports it unseen and records it; every later check of
an id still in the window reports it seen without modifying the ring, and
the middleware skips that duplicate delivery; and after 1000 subsequent
distinct insertions an id's membership is no longer guaranteed — there is
a sequence of 1000 distinct fresh ids whose insertion evicts the original
id, after which the guard reports it unseen again. -/
theorem c3_dedup_ring (s t : DedupState) (idA idB : String)
    (hA : idA ∉ s.events)
    (hB : idB ∈ t.events)
    (hBne : idB ≠ "") :
    (seen s idA = (false, dedupAppend s idA) ∧ idA ∈ (seen s idA).2.events) ∧
    (seen t idB = (true, t) ∧
      deduplicate_events (some "message") (some idB) t = (.skipDuplicate, t)) ∧
    (∃ ids : List String, ids.length = dedupMaxlen ∧ ids.Nodup ∧
      (seen (insertAll ids (seen ⟨[]⟩ "b").2) "b").1 = false) := by
  refine ⟨⟨?_, ?_⟩, ⟨?_, ?_⟩, ?_⟩
  · simp [seen, hA]
  · have h1 : (seen s idA).2 = dedupAppend s idA := by
      simp [seen, hA]
    rw [h1]
    have hmem : idA ∈ s.events ++ [idA] :=
      List.mem_append.mpr (Or.inr (List.mem_singleton.mpr rfl))
    simp only [dedupAppend]
    rw [List.length_append, List.length_singleton]
    rw [List.drop_append_of_le_length (by
      have hM : dedupMaxlen = 1000 := rfl
      rw [hM]
      omega)]
    exact List.mem_append.mpr (Or.inr (List.mem_singleton.mpr rfl))
  · simp [seen, hB]
  · simp [deduplicate_events, truthy, hBne, seen, hB]
  · refine ⟨(List.range dedupMaxlen).map fun i => String.mk (List.replicate (i + 1) 'a'),
      ?_, ?_, ?_⟩
    · rw [List.length_map, List.length_range]
    · refine List.Nodup.map ?_ (List.nodup_range dedupMaxlen)
      intro i j hij
      have h1 : List.replicate (i + 1) 'a' = List.replicate (j + 1) 'a' := by
        injection hij
      have h2 := congrArg List.length h1
      rw [List.length_replicate, List.length_replicate] at h2
      omega
    · have hbmem : ∀ k, "b" ∉ ((List.range k).map fun i =>
          String.mk (List.replicate (i + 1) 'a')) := by
        intro k hc
        rw [List.mem_map] at hc
        obtain ⟨i, _, hi⟩ := hc
        have h1 : List.replicate (i + 1) 'a' = "b".data := congrArg String.data hi
        have h2 := congrArg List.length h1
        rw [List.length_replicate] at h2
        have h3 : ("b".data).length = 1 := rfl
        rw [h3] at h2
        have h4 : i = 0 := by omega
        rw [h4] at h1
        exact absurd h1 (by decide)
      have hnd : ((List.range dedupMaxlen).map fun i =>
          String.mk (List.replicate (i + 1) 'a')).Nodup := by
        refine List.Nodup.map ?_ (List.nodup_range dedupMaxlen)
        intro i j hij
        have h1 : List.replicate (i + 1) 'a' = List.replicate (j + 1) 'a' :=
          congrArg String.data hij
        have h2 := congrArg List.length h1
        rw [List.length_replicate, List.length_replicate] at h2
        omega
      have hlen0 : ((List.range dedupMaxlen).map fun i =>
          String.mk (List.replicate (i + 1) 'a')).length = dedupMaxlen := by
        rw [List.length_map, List.length_range]
      exact dedup_evict_helper _ hnd hlen0 (hbmem dedupMaxlen)

/-- Closed witness for C3. -/
theorem c3_witness :
    (seen ⟨["x"]⟩ "y" = (false, dedupAppend ⟨["x"]⟩ "y") ∧
      "y" ∈ (seen ⟨["x"]⟩ "y").2.events) ∧
    (seen ⟨["x", "y"]⟩ "y" = (true, ⟨["x", "y"]⟩) ∧
      deduplicate_events (some "message") (some "y") ⟨["x", "y"]⟩ =
        (.skipDuplicate, ⟨["x", "y"]⟩)) ∧
    (∃ ids : List String, ids.length = dedupMaxlen ∧ ids.Nodup ∧
      (seen (insertAll ids (seen ⟨[]⟩ "b").2) "b").1 = false) :=
  c3_dedup_ring ⟨["x"]⟩ ⟨["x", "y"]⟩ "y" "y" (by decide) (by decide) (by decide)

/-- C4 counterexample: the claim says internal diagnostics (exception
text) are never emitted to the end-user channel for any error value; but
`handle_auth_complete`'s error path posts the exception text verbatim —
the message varies with the error and embeds it, and differs from the
orchestrator's generic apology. -/
theorem c4_counterexample :
    auth_complete_error_text "KeyError: channel_id" =
      ":warning: Something went wrong after the authorization: KeyError: channel_id" ∧
    auth_complete_error_text "KeyError: channel_id" ≠ genericErrorContent ∧
    auth_complete_error_text "KeyError: channel_id" ≠
      auth_complete_error_text "ValueError: boom" := by
  refine ⟨rfl, ?_, ?_⟩ <;> decide

/-- C4 amended: at the `invoke_agent` (Orchestrator) level every
unrecovered error yields the single fixed generic apology, independent
of the error value; the auth-completion listeners, however, interpolate
the exception text into the warning they post to the end-user channel. -/
theorem c4_amended_generic_at_orchestrator (e e2 : String) (thread_id : String)
    (t t2 : List Node) :
    toAgentResponse thread_id (.failed t e) =
      { content := some genericErrorContent, auth_message := none,
        thread_id := some thread_id } ∧
    toAgentResponse thread_id (.failed t e) = toAgentResponse thread_id (.failed t2 e2) ∧
    auth_complete_error_text e =
      ":warning: Something went wrong after the authorization: " ++ e ∧
    auth_complete_button_error_text e =
      ":warning: Could not open authorization dialog: " ++ e :=
  ⟨rfl, rfl, rfl, rfl⟩

end Archer
